import Mathlib

/-!
Formal model of the Bloom Scroll serendipity feed engine: the vector math
of `backend/app/analysis/processor.py`, the Bloom algorithm of
`backend/app/curation/bloom_algorithm.py`, and the `/feed` endpoint of
`backend/app/api/routes.py`, together with theorems about zone selection,
scoring, reason tags, the daily quota gate, and determinism.

Modelling conventions:
- Python floats are modelled as real numbers; `numpy` vector operations
  are modelled elementwise over `List ℝ` (`np.dot` on mismatched shapes
  raises, and the surrounding `except` handler returns the documented
  fallback, which is modelled by explicit length guards).
- The database is modelled as the list of `BloomCard` rows ordered
  newest-first (every query in the modelled code orders by
  `created_at DESC`), so `ORDER BY created_at DESC LIMIT n` becomes
  `List.take n`.
- Python truthiness of an optional list (`if not xs`) is modelled by
  `optListTruthy`: `None` and the empty list are falsy.
- Python's `list.sort` is a stable sort; it is modelled by
  `List.insertionSort` on the same key, which is also stable (stability is
  proved below), and any two stable sorts of the same list by the same key
  agree.
- The UUID parser of the Python standard library is external to the
  repository and is modelled as an opaque predicate parameter `validUUID`.
-/

set_option maxRecDepth 4000

noncomputable section

namespace BloomScroll

/-- A `BloomCard` row as the feed engine sees it: opaque identifier,
optional 384-dimensional embedding, and blindspot tags (`None` in the
database is modelled as the empty list). -/
structure BloomCard where
  id : String
  embedding : Option (List ℝ)
  blindspot_tags : List String

/-- Python truthiness of an optional list: `None` and `[]` are falsy,
a non-empty list is truthy. -/
def optListTruthy {α : Type} : Option (List α) → Bool
  | none => false
  | some [] => false
  | some (_ :: _) => true

/-- `np.dot` on two 1-D vectors (defined on the common prefix; it is only
used under an equal-length guard, matching `numpy` raising on mismatched
shapes). -/
def dot : List ℝ → List ℝ → ℝ
  | a :: as, b :: bs => a * b + dot as bs
  | _, _ => 0

/-- `np.linalg.norm` of a 1-D vector. -/
def vecNorm (v : List ℝ) : ℝ := Real.sqrt (dot v v)

/-- `NLPProcessor.calculate_cosine_similarity`: dot product over the
product of norms.  `np.dot` raises on mismatched lengths and the `except`
handler returns `0.0` (first guard); if either norm is zero it returns
`0.0` (second guard); otherwise the quotient. -/
def calculate_cosine_similarity (embedding1 embedding2 : List ℝ) : ℝ :=
  if embedding1.length ≠ embedding2.length then 0
  else if vecNorm embedding1 = 0 ∨ vecNorm embedding2 = 0 then 0
  else dot embedding1 embedding2 / (vecNorm embedding1 * vecNorm embedding2)

/-- `NLPProcessor.calculate_cosine_distance`: one minus the similarity. -/
def calculate_cosine_distance (embedding1 embedding2 : List ℝ) : ℝ :=
  1 - calculate_cosine_similarity embedding1 embedding2

/-- Elementwise sum of a list of vectors (`np.sum` over axis 0). -/
def vecSum : List (List ℝ) → List ℝ
  | [] => []
  | [v] => v
  | v :: rest => List.zipWith (· + ·) v (vecSum rest)

/-- `NLPProcessor.calculate_context_vector`: the elementwise mean
(`np.mean(..., axis=0)`) of the embeddings; the empty list gives the
all-zero 384-vector, and a ragged list makes `np.array` raise, with the
`except` handler returning the all-zero 384-vector. -/
def calculate_context_vector (embeddings : List (List ℝ)) : List ℝ :=
  if embeddings.isEmpty then List.replicate 384 0
  else if ∀ e ∈ embeddings, ∀ f ∈ embeddings, e.length = f.length then
    (vecSum embeddings).map (fun x => x / (embeddings.length : ℝ))
  else List.replicate 384 0

/-- The parameters of `BloomAlgorithm.__init__`. -/
structure BloomAlgorithm where
  min_distance : ℝ
  max_distance : ℝ
  min_quality : ℝ

/-- The instance constructed by the `/feed` endpoint:
`BloomAlgorithm(min_distance=0.3, max_distance=0.8)` (which also matches
the constructor defaults). -/
def feedBloom : BloomAlgorithm :=
  { min_distance := 0.3, max_distance := 0.8, min_quality := 70.0 }

/-- The midpoint `(min_distance + max_distance) / 2` used as the ideal
distance by both the scorer and the selector. -/
def BloomAlgorithm.ideal_distance (B : BloomAlgorithm) : ℝ :=
  (B.min_distance + B.max_distance) / 2

/-- The `SELECT ... WHERE embedding IS NOT NULL ORDER BY created_at DESC
LIMIT limit * 3` candidate retrieval of `_query_serendipity_zone`. -/
def candidatePool (db : List BloomCard) (limit : ℕ) : List BloomCard :=
  (db.filter fun c => c.embedding.isSome).take (limit * 3)

/-- The filtering loop of `_query_serendipity_zone`: skip cards with a
falsy embedding, compute the cosine distance to the context vector, and
keep `(distance, card)` pairs with the distance inside the zone. -/
def BloomAlgorithm.zonePairs (B : BloomAlgorithm) (context_vector : List ℝ) :
    List BloomCard → List (ℝ × BloomCard)
  | [] => []
  | card :: rest =>
    match card.embedding with
    | none => B.zonePairs context_vector rest
    | some e =>
      if e = [] then B.zonePairs context_vector rest
      else
        let distance := calculate_cosine_distance e context_vector
        if B.min_distance ≤ distance ∧ distance ≤ B.max_distance then
          (distance, card) :: B.zonePairs context_vector rest
        else B.zonePairs context_vector rest

/-- The sort key order used by `serendipity_cards.sort(key=lambda x:
abs(x[0] - ideal_distance))`: compare `(distance, card)` pairs by the
absolute deviation of the distance from `ideal`. -/
def distKeyRel (ideal : ℝ) (x y : ℝ × BloomCard) : Prop :=
  |x.1 - ideal| ≤ |y.1 - ideal|

instance (ideal : ℝ) : DecidableRel (distKeyRel ideal) :=
  fun x y => Real.decidableLE _ _

/-- The sorted survivor list of `_query_serendipity_zone`: the in-zone
`(distance, card)` pairs sorted stably by `abs(distance - ideal_distance)`
(Python's `list.sort` is stable; `insertionSort` is the stable sort of the
model). -/
def BloomAlgorithm.sortedPairs (B : BloomAlgorithm) (db : List BloomCard)
    (context_vector : List ℝ) (limit : ℕ) : List (ℝ × BloomCard) :=
  (B.zonePairs context_vector (candidatePool db limit)).insertionSort
    (distKeyRel B.ideal_distance)

/-- `BloomAlgorithm._query_serendipity_zone`: retrieve the candidate pool,
keep the in-zone pairs, sort them by deviation from the ideal distance,
truncate to `limit`, and drop the distances. -/
def BloomAlgorithm.query_serendipity_zone (B : BloomAlgorithm)
    (db : List BloomCard) (context_vector : List ℝ) (limit : ℕ) :
    List BloomCard :=
  ((B.sortedPairs db context_vector limit).take limit).map Prod.snd

/-- `BloomAlgorithm._get_recent_cards`: the `limit` newest cards. -/
def get_recent_cards (db : List BloomCard) (limit : ℕ) : List BloomCard :=
  db.take limit

/-- The embedding fetch of `_calculate_user_context`: embeddings of the
cards whose id is in `card_ids` with a non-NULL embedding (the SQL
filter), then the Python comprehension's `if row[0]` truthiness filter. -/
def fetchContextEmbeddings (db : List BloomCard) (card_ids : List String) :
    List (List ℝ) :=
  (db.filterMap fun c => if c.id ∈ card_ids then c.embedding else none).filter
    fun e => !e.isEmpty

/-- `BloomAlgorithm._calculate_user_context`: average the fetched context
embeddings; with no surviving embedding, the all-zero 384-vector. -/
def calculate_user_context (db : List BloomCard) (card_ids : List String) :
    List ℝ :=
  let embeddings := fetchContextEmbeddings db card_ids
  if embeddings.isEmpty then List.replicate 384 0
  else calculate_context_vector embeddings

/-- `BloomAlgorithm.generate_feed`: recent cards when the id list is falsy
or the computed context vector is empty or all-zero, otherwise the
serendipity-zone query. -/
def BloomAlgorithm.generate_feed (B : BloomAlgorithm) (db : List BloomCard)
    (user_context_ids : Option (List String)) (limit : ℕ) : List BloomCard :=
  if optListTruthy user_context_ids = false then get_recent_cards db limit
  else
    let context_vector := calculate_user_context db (user_context_ids.getD [])
    if context_vector.isEmpty ∨ ∀ v ∈ context_vector, v = 0 then
      get_recent_cards db limit
    else B.query_serendipity_zone db context_vector limit

/-- The zone test and clamped linear score of
`BloomAlgorithm.calculate_serendipity_score`, as a function of the already
computed distance. -/
def BloomAlgorithm.score_of_distance (B : BloomAlgorithm) (distance : ℝ) : ℝ :=
  if distance < B.min_distance ∨ distance > B.max_distance then 0
  else
    let deviation := |distance - B.ideal_distance|
    let max_deviation := (B.max_distance - B.min_distance) / 2
    max 0 (min 1 (1 - deviation / max_deviation))

/-- `BloomAlgorithm.calculate_serendipity_score`: the score of the cosine
distance between the card embedding and the context vector. -/
def BloomAlgorithm.calculate_serendipity_score (B : BloomAlgorithm)
    (card_embedding context_vector : List ℝ) : ℝ :=
  B.score_of_distance (calculate_cosine_distance card_embedding context_vector)

/-- `BloomAlgorithm.calculate_reason_tag`: `RECENT` when the context
vector or the card embedding is falsy; otherwise, by the distance between
them: blindspot tags win, then `> 0.6`, `> 0.4`, `< 0.4`, and the
`SERENDIPITY` default (reached exactly at distance `0.4`). -/
def BloomAlgorithm.calculate_reason_tag (B : BloomAlgorithm) (card : BloomCard)
    (context_vector : Option (List ℝ)) : String :=
  if optListTruthy context_vector = false ∨ optListTruthy card.embedding = false
  then "RECENT"
  else
    let distance :=
      calculate_cosine_distance (card.embedding.getD []) (context_vector.getD [])
    if card.blindspot_tags ≠ [] then "BLINDSPOT_BREAKER"
    else if distance > 0.6 then "EXPLORE"
    else if distance > 0.4 then "PERSPECTIVE_SHIFT"
    else if distance < 0.4 then "DEEP_DIVE"
    else "SERENDIPITY"

/-- The hard-coded `DAILY_LIMIT = 20` of `routes.py`. -/
def DAILY_LIMIT : ℕ := 20

/-- The `pagination` object of the `/feed` response. -/
structure Pagination where
  page : ℕ
  limit : ℕ
  has_next_page : Bool
  total_read_today : ℕ
  daily_limit : ℕ

/-- The `stats` payload of the `completion` object (its `message` and
`subtitle` strings are constants and carry no information). -/
structure Completion where
  read_count : ℕ
  daily_limit : ℕ

/-- The `/feed` response body: cards paired with their reason tags,
pagination metadata, the optional completion object, and the
`serendipity_enabled` flag (absent on the exhausted branch). -/
structure FeedResponse where
  cards : List (BloomCard × String)
  pagination : Pagination
  completion : Option Completion
  serendipity_enabled : Option Bool

/-- An `HTTPException` raised to the caller. -/
structure HttpError where
  status_code : ℕ

/-- The `get_feed` endpoint of `routes.py`.

`validUUID` models `uuid.UUID` parsing (a Python standard library
external).  Order of the modelled code: the quota gate first (`remaining
<= 0` returns the completion page immediately), then UUID validation of a
truthy `user_context` (HTTP 422 on failure), then the Bloom algorithm
with `effective_limit = min(limit, remaining)`, the recomputed context
vector for reason tags (only when `user_context` is truthy), the per-card
reason tags (computed with the recomputed context vector whenever that
list is truthy), and the pagination/completion bookkeeping.  The
`try`/`except` fallbacks around the ranking path and per-card `to_dict`
cannot fire in the pure model and are not represented. -/
def get_feed (validUUID : String → Bool) (db : List BloomCard)
    (user_context : Option (List String)) (page read_count limit : ℕ) :
    Except HttpError FeedResponse :=
  if DAILY_LIMIT ≤ read_count then
    .ok
      { cards := []
        pagination :=
          { page := page, limit := limit, has_next_page := false
            total_read_today := read_count, daily_limit := DAILY_LIMIT }
        completion :=
          some { read_count := read_count, daily_limit := DAILY_LIMIT }
        serendipity_enabled := none }
  else if optListTruthy user_context = true ∧
      (user_context.getD []).all validUUID = false then
    .error { status_code := 422 }
  else
    let effective_limit := min limit (DAILY_LIMIT - read_count)
    let cards := feedBloom.generate_feed db user_context effective_limit
    let context_vector : Option (List ℝ) :=
      if optListTruthy user_context = true then
        some (calculate_user_context db (user_context.getD []))
      else none
    let cards_data := cards.map fun card =>
      (card,
        if optListTruthy context_vector = true then
          feedBloom.calculate_reason_tag card context_vector
        else "RECENT")
    let new_read_count := read_count + cards_data.length
    let has_next_page := decide (new_read_count < DAILY_LIMIT)
    .ok
      { cards := cards_data
        pagination :=
          { page := page, limit := effective_limit
            has_next_page := has_next_page
            total_read_today := new_read_count, daily_limit := DAILY_LIMIT }
        completion :=
          if has_next_page then none
          else some { read_count := new_read_count, daily_limit := DAILY_LIMIT }
        serendipity_enabled := some (optListTruthy user_context) }

/-! ### Basic lemmas about the vector math -/

lemma feedBloom_min : feedBloom.min_distance = 0.3 := rfl

lemma feedBloom_max : feedBloom.max_distance = 0.8 := rfl

lemma feedBloom_ideal : feedBloom.ideal_distance = 0.55 := by
  rw [BloomAlgorithm.ideal_distance, feedBloom_min, feedBloom_max]
  norm_num

lemma dot_self_eq_zero_of_zero {z : List ℝ} (h : ∀ v ∈ z, v = 0) :
    dot z z = 0 := by
  induction z with
  | nil => rfl
  | cons a t ih =>
    have ha : a = 0 := h a (List.mem_cons_self a t)
    have ht : ∀ v ∈ t, v = 0 := fun v hv => h v (List.mem_cons_of_mem a hv)
    simp [dot, ha, ih ht]

lemma vecNorm_eq_zero_of_zero {z : List ℝ} (h : ∀ v ∈ z, v = 0) :
    vecNorm z = 0 := by
  rw [vecNorm, dot_self_eq_zero_of_zero h, Real.sqrt_zero]

lemma sim_eq_zero_of_norm_zero {a b : List ℝ}
    (h : vecNorm a = 0 ∨ vecNorm b = 0) :
    calculate_cosine_similarity a b = 0 := by
  rw [calculate_cosine_similarity]
  by_cases hlen : a.length ≠ b.length
  · rw [if_pos hlen]
  · rw [if_neg hlen, if_pos h]

lemma dist_eq_one_of_norm_zero {a b : List ℝ}
    (h : vecNorm a = 0 ∨ vecNorm b = 0) :
    calculate_cosine_distance a b = 1 := by
  rw [calculate_cosine_distance, sim_eq_zero_of_norm_zero h, sub_zero]

/-- For equal-length vectors of norm one, the similarity is the dot
product. -/
lemma sim_of_unit_norms {a b : List ℝ} (hlen : a.length = b.length)
    (ha : vecNorm a = 1) (hb : vecNorm b = 1) :
    calculate_cosine_similarity a b = dot a b := by
  rw [calculate_cosine_similarity, if_neg (by simp [hlen]), if_neg, ha, hb]
  · norm_num
  · rw [ha, hb]
    norm_num

/-! ### Claim theorems: vector math and scorer -/

/-- Claim C7: whenever either argument has zero norm, the cosine
similarity is `0.0` and the cosine distance is `1.0`; and division only
ever happens with a non-zero denominator (the function is total — every
Python exception path is modelled by a defaulting guard, never by
failure). -/
theorem c7_cosine_fails_closed :
    (∀ a b : List ℝ, vecNorm a = 0 ∨ vecNorm b = 0 →
      calculate_cosine_similarity a b = 0 ∧ calculate_cosine_distance a b = 1)
    ∧ (∀ a b : List ℝ, calculate_cosine_similarity a b = 0 ∨
        (vecNorm a * vecNorm b ≠ 0 ∧
          calculate_cosine_similarity a b =
            dot a b / (vecNorm a * vecNorm b))) := by
  constructor
  · intro a b h
    exact ⟨sim_eq_zero_of_norm_zero h, dist_eq_one_of_norm_zero h⟩
  · intro a b
    by_cases hlen : a.length ≠ b.length
    · left
      rw [calculate_cosine_similarity, if_pos hlen]
    · by_cases hz : vecNorm a = 0 ∨ vecNorm b = 0
      · left
        exact sim_eq_zero_of_norm_zero hz
      · right
        push_neg at hz
        refine ⟨mul_ne_zero hz.1 hz.2, ?_⟩
        rw [calculate_cosine_similarity, if_neg hlen, if_neg]
        push_neg
        exact hz

/-- Witness for C7 at a concrete zero vector. -/
theorem c7_cosine_fails_closed_witness :
    (vecNorm [(0 : ℝ), 0] = 0 ∨ vecNorm [(1 : ℝ), 2] = 0) ∧
      calculate_cosine_similarity [(0 : ℝ), 0] [1, 2] = 0 ∧
      calculate_cosine_distance [(0 : ℝ), 0] [1, 2] = 1 := by
  have h : vecNorm [(0 : ℝ), 0] = 0 :=
    vecNorm_eq_zero_of_zero (by intro v hv; simpa using hv)
  exact ⟨Or.inl h, c7_cosine_fails_closed.1 [0, 0] [1, 2] (Or.inl h)⟩

/-- Claim C3: the serendipity score of a distance is `0` outside the zone
`[0.3, 0.8]`, equals the clamped `1 - |d - 0.55| / 0.25` inside it, is
exactly `1` at `0.55`, exactly `0` at the two boundaries, and always lies
in `[0, 1]`; `calculate_serendipity_score` is that function of the cosine
distance. -/
theorem c3_serendipity_score (d : ℝ) :
    (∀ e cv : List ℝ, feedBloom.calculate_serendipity_score e cv =
      feedBloom.score_of_distance (calculate_cosine_distance e cv))
    ∧ (d < 0.3 ∨ d > 0.8 → feedBloom.score_of_distance d = 0)
    ∧ (0.3 ≤ d → d ≤ 0.8 →
        feedBloom.score_of_distance d = max 0 (min 1 (1 - |d - 0.55| / 0.25)))
    ∧ feedBloom.score_of_distance 0.55 = 1
    ∧ feedBloom.score_of_distance 0.3 = 0
    ∧ feedBloom.score_of_distance 0.8 = 0
    ∧ 0 ≤ feedBloom.score_of_distance d
    ∧ feedBloom.score_of_distance d ≤ 1 := by
  have hin : ∀ x : ℝ, 0.3 ≤ x → x ≤ 0.8 →
      feedBloom.score_of_distance x = max 0 (min 1 (1 - |x - 0.55| / 0.25)) := by
    intro x h1 h2
    rw [BloomAlgorithm.score_of_distance, if_neg]
    · rw [feedBloom_ideal, feedBloom_max, feedBloom_min]
      norm_num
    · rw [feedBloom_min, feedBloom_max]
      push_neg
      exact ⟨h1, h2⟩
  have hbounds : ∀ x : ℝ, 0 ≤ feedBloom.score_of_distance x ∧
      feedBloom.score_of_distance x ≤ 1 := by
    intro x
    rw [BloomAlgorithm.score_of_distance]
    by_cases h : x < feedBloom.min_distance ∨ x > feedBloom.max_distance
    · rw [if_pos h]
      norm_num
    · rw [if_neg h]
      constructor
      · exact le_max_left 0 _
      · exact max_le (by norm_num) (min_le_left 1 _)
  have habs1 : |(0.3 : ℝ) - 0.55| = 0.25 := by
    rw [abs_of_nonpos (by norm_num)]
    norm_num
  have habs2 : |(0.8 : ℝ) - 0.55| = 0.25 := by
    rw [abs_of_nonneg (by norm_num)]
    norm_num
  refine ⟨fun e cv => rfl, ?_, hin d, ?_, ?_, ?_, hbounds d⟩
  · intro h
    rw [BloomAlgorithm.score_of_distance, if_pos]
    rwa [feedBloom_min, feedBloom_max]
  · rw [hin 0.55 (by norm_num) (by norm_num)]
    norm_num
  · rw [hin 0.3 (by norm_num) (by norm_num), habs1]
    norm_num
  · rw [hin 0.8 (by norm_num) (by norm_num), habs2]
    norm_num

/-- Witness for C3: out-of-zone distances score zero, and the in-zone
formula evaluates at the midpoint. -/
theorem c3_serendipity_score_witness :
    ((0.9 : ℝ) < 0.3 ∨ (0.9 : ℝ) > 0.8) ∧
      feedBloom.score_of_distance 0.9 = 0 := by
  exact ⟨Or.inr (by norm_num), (c3_serendipity_score 0.9).2.1 (Or.inr (by norm_num))⟩

/-! ### Claim theorems: quota gate -/

/-- Claim C5: with `read_count` at or over the daily limit, `get_feed`
returns the fixed completion page — zero cards, `has_next_page = false`,
completion object present — independently of the store, the context ids
and the requested limit (so the Bloom selector is never consulted). -/
theorem c5_exhausted_gate (validUUID : String → Bool) (db : List BloomCard)
    (uc : Option (List String)) (page rc lim : ℕ)
    (h : DAILY_LIMIT ≤ rc) :
    get_feed validUUID db uc page rc lim =
      .ok
        { cards := []
          pagination :=
            { page := page, limit := lim, has_next_page := false
              total_read_today := rc, daily_limit := DAILY_LIMIT }
          completion := some { read_count := rc, daily_limit := DAILY_LIMIT }
          serendipity_enabled := none } := by
  simp only [get_feed, if_pos h]

/-- Witness for C5 at `read_count = 20`, requested limit 10. -/
theorem c5_exhausted_gate_witness :
    DAILY_LIMIT ≤ 20 ∧
      get_feed (fun _ => true) [] none 1 20 10 =
        .ok
          { cards := []
            pagination :=
              { page := 1, limit := 10, has_next_page := false
                total_read_today := 20, daily_limit := DAILY_LIMIT }
            completion := some { read_count := 20, daily_limit := DAILY_LIMIT }
            serendipity_enabled := none } :=
  ⟨by decide, c5_exhausted_gate (fun _ => true) [] none 1 20 10 (by decide)⟩

/-! ### Claim theorems: determinism -/

/-- Claim C9: feed generation is a pure function of the store snapshot,
the context ids / context vector and the limit — two runs on identical
inputs produce identical ordered output (the sort is `insertionSort`,
which is stable, and no step consults any other state). -/
theorem c9_determinism :
    (∀ (B : BloomAlgorithm) (db1 db2 : List BloomCard)
        (ids1 ids2 : Option (List String)) (l1 l2 : ℕ),
        db1 = db2 → ids1 = ids2 → l1 = l2 →
        B.generate_feed db1 ids1 l1 = B.generate_feed db2 ids2 l2)
    ∧ (∀ (B : BloomAlgorithm) (db1 db2 : List BloomCard)
        (cv1 cv2 : List ℝ) (l1 l2 : ℕ),
        db1 = db2 → cv1 = cv2 → l1 = l2 →
        B.query_serendipity_zone db1 cv1 l1 =
          B.query_serendipity_zone db2 cv2 l2) := by
  constructor
  · intro B db1 db2 ids1 ids2 l1 l2 h1 h2 h3
    rw [h1, h2, h3]
  · intro B db1 db2 cv1 cv2 l1 l2 h1 h2 h3
    rw [h1, h2, h3]

/-- Witness for C9 at concrete equal inputs. -/
theorem c9_determinism_witness :
    feedBloom.generate_feed [] none 3 = feedBloom.generate_feed [] none 3 :=
  c9_determinism.1 feedBloom [] [] none none 3 3 rfl rfl rfl

/-! ### Claim theorem: reason tags -/

/-- Claim C4: the reason tag precedence — falsy context vector or card
embedding gives `RECENT`; then blindspot tags give `BLINDSPOT_BREAKER`;
then distance `> 0.6` gives `EXPLORE`, `> 0.4` gives `PERSPECTIVE_SHIFT`,
`< 0.4` gives `DEEP_DIVE`; and at distance exactly `0.4` the code falls
through to `SERENDIPITY`. -/
theorem c4_reason_tag (card : BloomCard) (cv : Option (List ℝ)) :
    (optListTruthy cv = false ∨ optListTruthy card.embedding = false →
      feedBloom.calculate_reason_tag card cv = "RECENT")
    ∧ (optListTruthy cv = true → optListTruthy card.embedding = true →
        (card.blindspot_tags ≠ [] →
          feedBloom.calculate_reason_tag card cv = "BLINDSPOT_BREAKER")
        ∧ (card.blindspot_tags = [] →
            (calculate_cosine_distance (card.embedding.getD []) (cv.getD [])
                > 0.6 →
              feedBloom.calculate_reason_tag card cv = "EXPLORE")
            ∧ (0.4 <
                  calculate_cosine_distance (card.embedding.getD []) (cv.getD []) →
                calculate_cosine_distance (card.embedding.getD []) (cv.getD [])
                  ≤ 0.6 →
                feedBloom.calculate_reason_tag card cv = "PERSPECTIVE_SHIFT")
            ∧ (calculate_cosine_distance (card.embedding.getD []) (cv.getD [])
                  < 0.4 →
                feedBloom.calculate_reason_tag card cv = "DEEP_DIVE")
            ∧ (calculate_cosine_distance (card.embedding.getD []) (cv.getD [])
                  = 0.4 →
                feedBloom.calculate_reason_tag card cv = "SERENDIPITY"))) := by
  constructor
  · intro h
    rw [BloomAlgorithm.calculate_reason_tag, if_pos h]
  · intro hcv hemb
    have hne : ¬(optListTruthy cv = false ∨
        optListTruthy card.embedding = false) := by
      simp [hcv, hemb]
    constructor
    · intro htags
      simp only [BloomAlgorithm.calculate_reason_tag, if_neg hne]
      rw [if_pos htags]
    · intro htags
      refine ⟨?_, ?_, ?_, ?_⟩
      · intro hd
        simp only [BloomAlgorithm.calculate_reason_tag, if_neg hne]
        rw [if_neg (by simp [htags]), if_pos hd]
      · intro hd1 hd2
        simp only [BloomAlgorithm.calculate_reason_tag, if_neg hne]
        rw [if_neg (by simp [htags]), if_neg (not_lt.mpr hd2), if_pos hd1]
      · intro hd
        simp only [BloomAlgorithm.calculate_reason_tag, if_neg hne]
        rw [if_neg (by simp [htags]),
          if_neg (not_lt.mpr (le_of_lt (hd.trans (by norm_num)))),
          if_neg (not_lt.mpr (le_of_lt hd)), if_pos hd]
      · intro hd
        simp only [BloomAlgorithm.calculate_reason_tag, if_neg hne]
        rw [if_neg (by simp [htags]), if_neg (by rw [hd]; norm_num),
          if_neg (by rw [hd]; norm_num), if_neg (by rw [hd]; norm_num)]

/-- Witness for C4: at distance exactly `0.4` (unit vectors `[1, 0]` and
`[0.6, 0.8]`) the tag is the fallthrough `SERENDIPITY`. -/
theorem c4_reason_tag_witness :
    optListTruthy (some [(0.6 : ℝ), 0.8]) = true ∧
      optListTruthy (some [(1 : ℝ), 0]) = true ∧
      calculate_cosine_distance
        ((some [(1 : ℝ), 0]).getD []) ((some [(0.6 : ℝ), 0.8]).getD []) = 0.4 ∧
      feedBloom.calculate_reason_tag
        { id := "c", embedding := some [(1 : ℝ), 0], blindspot_tags := [] }
        (some [(0.6 : ℝ), 0.8]) = "SERENDIPITY" := by
  have h1 : vecNorm [(1 : ℝ), 0] = 1 := by
    rw [vecNorm]
    norm_num [dot, Real.sqrt_one]
  have h2 : vecNorm [(0.6 : ℝ), 0.8] = 1 := by
    rw [vecNorm, show dot [(0.6 : ℝ), 0.8] [(0.6 : ℝ), 0.8] = 1 by
      norm_num [dot]]
    exact Real.sqrt_one
  have hd : calculate_cosine_distance [(1 : ℝ), 0] [(0.6 : ℝ), 0.8] = 0.4 := by
    rw [calculate_cosine_distance,
      @sim_of_unit_norms [(1 : ℝ), 0] [(0.6 : ℝ), 0.8] (by simp) h1 h2]
    norm_num [dot]
  exact ⟨rfl, rfl, hd,
    ((c4_reason_tag
        { id := "c", embedding := some [(1 : ℝ), 0], blindspot_tags := [] }
        (some [(0.6 : ℝ), 0.8])).2 rfl rfl).2 rfl |>.2.2.2 hd⟩

/-! ### Claim theorems: quota arithmetic on the endpoint -/

lemma query_serendipity_zone_length_le (B : BloomAlgorithm)
    (db : List BloomCard) (cv : List ℝ) (limit : ℕ) :
    (B.query_serendipity_zone db cv limit).length ≤ limit := by
  rw [BloomAlgorithm.query_serendipity_zone, List.length_map,
    List.length_take]
  exact min_le_left _ _

lemma get_recent_cards_length_le (db : List BloomCard) (limit : ℕ) :
    (get_recent_cards db limit).length ≤ limit := by
  rw [get_recent_cards, List.length_take]
  exact min_le_left _ _

lemma generate_feed_length_le (B : BloomAlgorithm) (db : List BloomCard)
    (ids : Option (List String)) (limit : ℕ) :
    (B.generate_feed db ids limit).length ≤ limit := by
  simp only [BloomAlgorithm.generate_feed]
  split_ifs with h1 h2
  · exact get_recent_cards_length_le db limit
  · exact get_recent_cards_length_le db limit
  · exact query_serendipity_zone_length_le B db _ limit

/-- Claim C6: with remaining budget, the effective limit
`min(limit, DAILY_LIMIT - read_count)` never exceeds the remaining
budget, the page never carries more cards than the remaining budget, and
the reported `total_read_today` never exceeds the daily limit. -/
theorem c6_quota_invariants (validUUID : String → Bool) (db : List BloomCard)
    (uc : Option (List String)) (page rc lim : ℕ) (resp : FeedResponse)
    (hrc : rc < DAILY_LIMIT)
    (hok : get_feed validUUID db uc page rc lim = .ok resp) :
    min lim (DAILY_LIMIT - rc) ≤ DAILY_LIMIT - rc
    ∧ resp.cards.length ≤ DAILY_LIMIT - rc
    ∧ resp.pagination.limit ≤ DAILY_LIMIT - rc
    ∧ resp.pagination.total_read_today ≤ DAILY_LIMIT := by
  simp only [get_feed] at hok
  rw [if_neg (not_le.mpr hrc)] at hok
  by_cases hval : optListTruthy uc = true ∧
      (uc.getD []).all validUUID = false
  · rw [if_pos hval] at hok
    simp at hok
  · rw [if_neg hval] at hok
    injection hok with hok
    subst hok
    have hlen : (feedBloom.generate_feed db uc
        (min lim (DAILY_LIMIT - rc))).length ≤ min lim (DAILY_LIMIT - rc) :=
      generate_feed_length_le _ _ _ _
    have hmin : min lim (DAILY_LIMIT - rc) ≤ DAILY_LIMIT - rc :=
      min_le_right _ _
    refine ⟨hmin, ?_, hmin, ?_⟩
    · simpa using hlen.trans hmin
    · simp only [Pagination.mk.injEq, List.length_map]
      omega

/-- Witness for C6 at `read_count = 5`, requested limit 10, empty store. -/
theorem c6_quota_invariants_witness :
    5 < DAILY_LIMIT ∧
      get_feed (fun _ => true) [] none 1 5 10 =
        .ok
          { cards := []
            pagination :=
              { page := 1, limit := 10, has_next_page := true
                total_read_today := 5, daily_limit := 20 }
            completion := none
            serendipity_enabled := some false } ∧
      (min 10 (DAILY_LIMIT - 5) ≤ DAILY_LIMIT - 5
        ∧ ([] : List (BloomCard × String)).length ≤ DAILY_LIMIT - 5
        ∧ (10 : ℕ) ≤ DAILY_LIMIT - 5
        ∧ (5 : ℕ) ≤ DAILY_LIMIT) := by
  have hok : get_feed (fun _ => true) [] none 1 5 10 =
      .ok
        { cards := []
          pagination :=
            { page := 1, limit := 10, has_next_page := true
              total_read_today := 5, daily_limit := 20 }
          completion := none
          serendipity_enabled := some false } := rfl
  exact ⟨by decide, hok,
    c6_quota_invariants (fun _ => true) [] none 1 5 10 _ (by decide) hok⟩

lemma decide_completion_iff (n : ℕ) :
    ((if decide (n < DAILY_LIMIT) = true then (none : Option Completion)
        else some { read_count := n, daily_limit := DAILY_LIMIT }).isSome = true
      ↔ decide (n < DAILY_LIMIT) = false)
    ∧ (decide (n < DAILY_LIMIT) = false ↔ DAILY_LIMIT ≤ n) := by
  by_cases h : n < DAILY_LIMIT <;> simp [h] <;> omega

/-- Claim C10: in every successful `/feed` response, the completion
object is present exactly when `has_next_page` is false, and
`has_next_page` is false exactly when `total_read_today` has reached the
daily limit. -/
theorem c10_completion_iff (validUUID : String → Bool) (db : List BloomCard)
    (uc : Option (List String)) (page rc lim : ℕ) (resp : FeedResponse)
    (hok : get_feed validUUID db uc page rc lim = .ok resp) :
    (resp.completion.isSome = true ↔ resp.pagination.has_next_page = false)
    ∧ (resp.pagination.has_next_page = false ↔
        DAILY_LIMIT ≤ resp.pagination.total_read_today) := by
  simp only [get_feed] at hok
  by_cases hrc : DAILY_LIMIT ≤ rc
  · rw [if_pos hrc] at hok
    injection hok with hok
    subst hok
    simpa using hrc
  · rw [if_neg hrc] at hok
    by_cases hval : optListTruthy uc = true ∧
        (uc.getD []).all validUUID = false
    · rw [if_pos hval] at hok
      simp at hok
    · rw [if_neg hval] at hok
      injection hok with hok
      subst hok
      exact decide_completion_iff _

/-- Witness for C10 at `read_count = 19`, empty store, no context. -/
theorem c10_completion_iff_witness :
    get_feed (fun _ => true) [] none 1 19 5 =
      .ok
        { cards := []
          pagination :=
            { page := 1, limit := 1, has_next_page := true
              total_read_today := 19, daily_limit := 20 }
          completion := none
          serendipity_enabled := some false } ∧
    ((Option.isSome (none : Option Completion) = true ↔ true = false)
      ∧ (true = false ↔ DAILY_LIMIT ≤ 19)) := by
  have hok : get_feed (fun _ => true) [] none 1 19 5 =
      .ok
        { cards := []
          pagination :=
            { page := 1, limit := 1, has_next_page := true
              total_read_today := 19, daily_limit := 20 }
          completion := none
          serendipity_enabled := some false } := rfl
  exact ⟨hok, c10_completion_iff (fun _ => true) [] none 1 19 5 _ hok⟩

/-! ### Claim C1: the selector keeps exactly the in-zone candidates,
sorted stably by deviation from the ideal distance, truncated to `limit` -/

/-- The cosine distance a candidate card is scored at: the distance of
its (defaulted) embedding to the context vector. -/
def distOf (c : BloomCard) (context_vector : List ℝ) : ℝ :=
  calculate_cosine_distance (c.embedding.getD []) context_vector

/-- Membership in the serendipity zone, boundaries inclusive. -/
def BloomAlgorithm.inZone (B : BloomAlgorithm) (context_vector : List ℝ)
    (c : BloomCard) : Prop :=
  B.min_distance ≤ distOf c context_vector ∧
    distOf c context_vector ≤ B.max_distance

instance (B : BloomAlgorithm) (cv : List ℝ) (c : BloomCard) :
    Decidable (B.inZone cv c) :=
  inferInstanceAs
    (Decidable (B.min_distance ≤ distOf c cv ∧ distOf c cv ≤ B.max_distance))

lemma vecNorm_nil : vecNorm ([] : List ℝ) = 0 := by
  rw [vecNorm, show dot ([] : List ℝ) [] = 0 from rfl, Real.sqrt_zero]

lemma distOf_of_falsy_embedding {c : BloomCard}
    (h : c.embedding = none ∨ c.embedding = some []) (cv : List ℝ) :
    distOf c cv = 1 := by
  have : c.embedding.getD [] = [] := by
    rcases h with h | h <;> rw [h] <;> rfl
  rw [distOf, this]
  exact dist_eq_one_of_norm_zero (Or.inl vecNorm_nil)

lemma not_inZone_of_falsy_embedding {c : BloomCard}
    (h : c.embedding = none ∨ c.embedding = some []) (cv : List ℝ) :
    ¬ feedBloom.inZone cv c := by
  rw [BloomAlgorithm.inZone, distOf_of_falsy_embedding h cv, feedBloom_max,
    feedBloom_min]
  intro hz
  have := hz.2
  norm_num at this

/-- The filtering loop keeps exactly the in-zone candidates, as
`(distance, card)` pairs in retrieval order. -/
lemma zonePairs_eq_filter (cv : List ℝ) (l : List BloomCard) :
    feedBloom.zonePairs cv l =
      (l.filter fun c => decide (feedBloom.inZone cv c)).map
        (fun c => (distOf c cv, c)) := by
  induction l with
  | nil => rfl
  | cons c t ih =>
    rw [List.filter_cons]
    rcases hc : c.embedding with _ | e
    · have hnz : ¬ feedBloom.inZone cv c :=
        not_inZone_of_falsy_embedding (Or.inl hc) cv
      rw [if_neg (by simpa using hnz)]
      simp only [BloomAlgorithm.zonePairs, hc]
      exact ih
    · by_cases he : e = []
      · subst he
        have hnz : ¬ feedBloom.inZone cv c :=
          not_inZone_of_falsy_embedding (Or.inr hc) cv
        rw [if_neg (by simpa using hnz)]
        simp only [BloomAlgorithm.zonePairs, hc, if_pos rfl]
        exact ih
      · have hdist : distOf c cv = calculate_cosine_distance e cv := by
          rw [distOf, hc]
          rfl
        have hiz : feedBloom.inZone cv c ↔
            (feedBloom.min_distance ≤ calculate_cosine_distance e cv ∧
              calculate_cosine_distance e cv ≤ feedBloom.max_distance) := by
          rw [BloomAlgorithm.inZone, hdist]
        by_cases hz : feedBloom.min_distance ≤ calculate_cosine_distance e cv ∧
            calculate_cosine_distance e cv ≤ feedBloom.max_distance
        · rw [if_pos (by simpa using hiz.mpr hz)]
          simp only [BloomAlgorithm.zonePairs, hc]
          rw [if_neg he, if_pos hz, List.map_cons, ih, hdist]
        · rw [if_neg (by simpa using fun h => hz (hiz.mp h))]
          simp only [BloomAlgorithm.zonePairs, hc]
          rw [if_neg he, if_neg hz]
          exact ih

/-- Inserting into a sorted-by-key list never passes an element of equal
key: the filter at any key class commutes with `orderedInsert`. -/
lemma filter_orderedInsert_dist (i K : ℝ) (a : ℝ × BloomCard) :
    ∀ s : List (ℝ × BloomCard),
      (List.orderedInsert (distKeyRel i) a s).filter
          (fun p => decide (|p.1 - i| = K)) =
        if |a.1 - i| = K then
          a :: s.filter (fun p => decide (|p.1 - i| = K))
        else s.filter (fun p => decide (|p.1 - i| = K))
  | [] => by
    by_cases hK : |a.1 - i| = K <;>
      simp [List.orderedInsert, List.filter, hK]
  | b :: t => by
    have IH := filter_orderedInsert_dist i K a t
    by_cases hab : distKeyRel i a b
    · by_cases hK : |a.1 - i| = K <;>
        simp [List.orderedInsert, hab, List.filter_cons, hK]
    · have hba : |b.1 - i| < |a.1 - i| := not_le.mp hab
      by_cases hK : |a.1 - i| = K
      · have hbK : |b.1 - i| ≠ K := hK ▸ ne_of_lt hba
        simp [List.orderedInsert, hab, List.filter_cons, hK, hbK, IH]
      · by_cases hbK : |b.1 - i| = K <;>
          simp [List.orderedInsert, hab, List.filter_cons, hK, hbK, IH]

/-- Stability of the model's sort: for every value of the sort key, the
elements at that key appear in the sorted list exactly as they appeared in
the input list. -/
lemma filter_insertionSort_dist (i K : ℝ) :
    ∀ l : List (ℝ × BloomCard),
      (l.insertionSort (distKeyRel i)).filter
          (fun p => decide (|p.1 - i| = K)) =
        l.filter (fun p => decide (|p.1 - i| = K))
  | [] => rfl
  | a :: t => by
    rw [List.insertionSort,
      filter_orderedInsert_dist i K a (t.insertionSort (distKeyRel i)),
      filter_insertionSort_dist i K t]
    by_cases hK : |a.1 - i| = K <;> simp [List.filter_cons, hK]

/-- Claim C1: for every store snapshot, non-zero context vector and
limit, `_query_serendipity_zone` is the truncation-to-`limit` of the
sorted survivor list; it returns at most `limit` cards; the survivors
are exactly the pool candidates whose cosine distance lies in
`[0.3, 0.8]` (boundaries inclusive), in retrieval order; the sorted list
is ordered ascending by `|distance - 0.55|`; and the sort is stable — at
every key value the retrieval order is preserved. -/
theorem c1_selector (db : List BloomCard) (cv : List ℝ) (limit : ℕ)
    (hcv : ¬ ∀ v ∈ cv, v = 0) :
    feedBloom.query_serendipity_zone db cv limit =
      ((feedBloom.sortedPairs db cv limit).take limit).map Prod.snd
    ∧ (feedBloom.query_serendipity_zone db cv limit).length ≤ limit
    ∧ feedBloom.zonePairs cv (candidatePool db limit) =
        ((candidatePool db limit).filter fun c =>
          decide (feedBloom.inZone cv c)).map (fun c => (distOf c cv, c))
    ∧ (feedBloom.sortedPairs db cv limit).Sorted
        (distKeyRel feedBloom.ideal_distance)
    ∧ ∀ K : ℝ,
        (feedBloom.sortedPairs db cv limit).filter
            (fun p => decide (|p.1 - feedBloom.ideal_distance| = K)) =
          (feedBloom.zonePairs cv (candidatePool db limit)).filter
            (fun p => decide (|p.1 - feedBloom.ideal_distance| = K)) := by
  refine ⟨rfl, query_serendipity_zone_length_le _ _ _ _,
    zonePairs_eq_filter cv _, ?_, ?_⟩
  · haveI : IsTotal (ℝ × BloomCard) (distKeyRel feedBloom.ideal_distance) :=
      ⟨fun a b => le_total _ _⟩
    haveI : IsTrans (ℝ × BloomCard) (distKeyRel feedBloom.ideal_distance) :=
      ⟨fun a b c hab hbc => le_trans hab hbc⟩
    exact List.sorted_insertionSort _ _
  · intro K
    rw [BloomAlgorithm.sortedPairs]
    exact filter_insertionSort_dist _ K _

/-- Witness for C1 on a two-card pool against the unit context vector
`[1, 0]`. -/
theorem c1_selector_witness :
    (¬ ∀ v ∈ [(1 : ℝ), 0], v = 0) ∧
      (feedBloom.query_serendipity_zone
        [{ id := "a", embedding := some [(0.28 : ℝ), 0.96], blindspot_tags := [] },
         { id := "b", embedding := some [(0.6 : ℝ), 0.8], blindspot_tags := [] }]
        [(1 : ℝ), 0] 2).length ≤ 2 ∧
      (feedBloom.sortedPairs
        [{ id := "a", embedding := some [(0.28 : ℝ), 0.96], blindspot_tags := [] },
         { id := "b", embedding := some [(0.6 : ℝ), 0.8], blindspot_tags := [] }]
        [(1 : ℝ), 0] 2).Sorted (distKeyRel feedBloom.ideal_distance) := by
  have h : ¬ ∀ v ∈ [(1 : ℝ), 0], v = 0 := by
    intro h
    exact one_ne_zero (h 1 (by simp))
  obtain ⟨-, h2, -, h4, -⟩ := c1_selector
    [{ id := "a", embedding := some [(0.28 : ℝ), 0.96], blindspot_tags := [] },
     { id := "b", embedding := some [(0.6 : ℝ), 0.8], blindspot_tags := [] }]
    [(1 : ℝ), 0] 2 h
  exact ⟨h, h2, h4⟩

/-! ### Claim C2: the all-zero context vector -/

/-- Item selection does fall back: whenever the computed context vector is
all-zero, `generate_feed` returns the recent-cards feed. -/
lemma generate_feed_recent_of_zero (B : BloomAlgorithm) (db : List BloomCard)
    (ids : Option (List String)) (limit : ℕ)
    (hzero : ∀ v ∈ calculate_user_context db (ids.getD []), v = 0) :
    B.generate_feed db ids limit = get_recent_cards db limit := by
  simp only [BloomAlgorithm.generate_feed]
  by_cases ht : optListTruthy ids = false
  · rw [if_pos ht]
  · rw [if_neg ht, if_pos (Or.inr hzero)]

/-- The reason tag computed against a truthy all-zero context vector: the
cosine distance degenerates to `1.0`, so a tagged card without blindspot
tags is labelled `EXPLORE` (not `RECENT`). -/
lemma reason_tag_of_zero_context (B : BloomAlgorithm) (card : BloomCard)
    (z : List ℝ) (hz : z ≠ []) (h0 : ∀ v ∈ z, v = 0)
    (hemb : optListTruthy card.embedding = true)
    (htags : card.blindspot_tags = []) :
    B.calculate_reason_tag card (some z) = "EXPLORE" := by
  have htr : optListTruthy (some z) = true := by
    cases z with
    | nil => exact absurd rfl hz
    | cons a t => rfl
  have hd : calculate_cosine_distance (card.embedding.getD []) z = 1 :=
    dist_eq_one_of_norm_zero (Or.inr (vecNorm_eq_zero_of_zero h0))
  simp only [BloomAlgorithm.calculate_reason_tag]
  rw [if_neg (by simp [htr, hemb]), Option.getD_some, if_neg (by simp [htags]),
    if_pos (by rw [hd]; norm_num)]

/-- Counterexample to C2: a store with one embedded card and a context id
that matches nothing.  The computed context vector is the all-zero
384-vector; item selection falls back, but the endpoint still hands that
truthy zero vector to the reason-tag computation, labelling the card
`EXPLORE` — whereas the no-context run of the same request labels it
`RECENT`.  The zero vector is therefore used in producing the page. -/
theorem c2_counterexample :
    calculate_user_context
        [{ id := "a", embedding := some [(1 : ℝ), 0], blindspot_tags := [] }]
        ["b"] = List.replicate 384 0 ∧
      (get_feed (fun _ => true)
          [{ id := "a", embedding := some [(1 : ℝ), 0], blindspot_tags := [] }]
          (some ["b"]) 1 0 10).map (fun r => r.cards.map Prod.snd) =
        .ok ["EXPLORE"] ∧
      (get_feed (fun _ => true)
          [{ id := "a", embedding := some [(1 : ℝ), 0], blindspot_tags := [] }]
          none 1 0 10).map (fun r => r.cards.map Prod.snd) =
        .ok ["RECENT"] := by
  have hctx : calculate_user_context
      [{ id := "a", embedding := some [(1 : ℝ), 0], blindspot_tags := [] }]
      ["b"] = List.replicate 384 0 := rfl
  refine ⟨hctx, ?_, by rfl⟩
  have hzero : ∀ v ∈ calculate_user_context
      [{ id := "a", embedding := some [(1 : ℝ), 0], blindspot_tags := [] }]
      ((some ["b"]).getD []), v = 0 := by
    intro v hv
    rw [show ((some ["b"]).getD []) = ["b"] from rfl, hctx] at hv
    exact List.eq_of_mem_replicate hv
  simp only [get_feed]
  rw [if_neg (by decide), if_neg (by decide),
    generate_feed_recent_of_zero feedBloom _ (some ["b"]) _ hzero]
  rw [show ((some ["b"]).getD []) = ["b"] from rfl, hctx]
  rw [show (min 10 (DAILY_LIMIT - 0)) = 10 from by decide]
  rw [show get_recent_cards
      [{ id := "a", embedding := some [(1 : ℝ), 0], blindspot_tags := [] }] 10 =
    [{ id := "a", embedding := some [(1 : ℝ), 0], blindspot_tags := [] }]
    from rfl]
  rw [show optListTruthy (some ["b"]) = true from rfl]
  simp only [List.map_cons, List.map_nil, eq_self_iff_true, if_true]
  rw [show optListTruthy (some (List.replicate 384 (0 : ℝ))) = true from rfl]
  simp only [eq_self_iff_true, if_true]
  rw [reason_tag_of_zero_context feedBloom
    { id := "a", embedding := some [(1 : ℝ), 0], blindspot_tags := [] }
    (List.replicate 384 0)
    (by intro h; simpa using congrArg List.length h)
    (fun v hv => List.eq_of_mem_replicate hv) rfl rfl]
  rfl

/-- Claim C2, amended: the all-zero context vector is treated as "no
context" for item selection — `generate_feed` falls back to the recent
feed — but not for reason tags: the endpoint passes the (truthy) zero
vector to the tag computation, which sees cosine distance `1.0` and
labels every embedded, non-blindspot card `EXPLORE` instead of the
no-context `RECENT`. -/
theorem c2_zero_context_amended :
    (∀ (B : BloomAlgorithm) (db : List BloomCard)
        (ids : Option (List String)) (limit : ℕ),
        (∀ v ∈ calculate_user_context db (ids.getD []), v = 0) →
        B.generate_feed db ids limit = get_recent_cards db limit)
    ∧ (∀ (card : BloomCard) (z : List ℝ), z ≠ [] → (∀ v ∈ z, v = 0) →
        optListTruthy card.embedding = true → card.blindspot_tags = [] →
        feedBloom.calculate_reason_tag card (some z) = "EXPLORE") :=
  ⟨fun B db ids limit hzero =>
      generate_feed_recent_of_zero B db ids limit hzero,
    fun card z hz h0 hemb htags =>
      reason_tag_of_zero_context feedBloom card z hz h0 hemb htags⟩

/-- Witness for the amended C2 at concrete inputs. -/
theorem c2_zero_context_amended_witness :
    (∀ v ∈ calculate_user_context [] ((none : Option (List String)).getD []),
        v = 0) ∧
      feedBloom.generate_feed [] none 5 = get_recent_cards [] 5 ∧
      ([(0 : ℝ)] ≠ [] ∧ (∀ v ∈ [(0 : ℝ)], v = 0)) ∧
      feedBloom.calculate_reason_tag
        { id := "x", embedding := some [(1 : ℝ)], blindspot_tags := [] }
        (some [(0 : ℝ)]) = "EXPLORE" := by
  have hzero : ∀ v ∈ calculate_user_context []
      ((none : Option (List String)).getD []), v = 0 := by
    intro v hv
    rw [show calculate_user_context []
      ((none : Option (List String)).getD []) = List.replicate 384 0
      from rfl] at hv
    exact List.eq_of_mem_replicate hv
  have h1 : [(0 : ℝ)] ≠ [] := by simp
  have h2 : ∀ v ∈ [(0 : ℝ)], v = 0 := by
    intro v hv
    simpa using hv
  exact ⟨hzero, c2_zero_context_amended.1 feedBloom [] none 5 hzero, ⟨h1, h2⟩,
    c2_zero_context_amended.2
      { id := "x", embedding := some [(1 : ℝ)], blindspot_tags := [] }
      [(0 : ℝ)] h1 h2 rfl rfl⟩

/-! ### Claim C8: rejection of non-parseable identifiers -/

/-- Counterexample to C8: a request that is already over quota and
carries a non-parseable identifier is *not* rejected — the quota gate
runs first and returns the ordinary completion page. -/
theorem c8_counterexample :
    (fun _ : String => false) "not-a-uuid" = false ∧
      get_feed (fun _ => false) [] (some ["not-a-uuid"]) 1 20 10 =
        .ok
          { cards := []
            pagination :=
              { page := 1, limit := 10, has_next_page := false
                total_read_today := 20, daily_limit := 20 }
            completion := some { read_count := 20, daily_limit := 20 }
            serendipity_enabled := none } :=
  ⟨rfl, rfl⟩

/-- Claim C8, amended: a non-parseable identifier in a truthy context
list is rejected with HTTP 422 before any feed computation *provided the
quota gate passes* (`read_count < DAILY_LIMIT`); an exhausted request
skips validation and returns the completion page.  Validation failure is
the only error path: with no context list or all identifiers parseable,
`get_feed` never returns an error. -/
theorem c8_validation_amended (validUUID : String → Bool)
    (db : List BloomCard) (uc : Option (List String)) (page rc lim : ℕ) :
    (rc < DAILY_LIMIT → optListTruthy uc = true →
      (uc.getD []).all validUUID = false →
      get_feed validUUID db uc page rc lim = .error { status_code := 422 })
    ∧ (optListTruthy uc = false ∨ (uc.getD []).all validUUID = true →
        ∀ e : HttpError, get_feed validUUID db uc page rc lim ≠ .error e) := by
  constructor
  · intro hrc htr hval
    simp only [get_feed]
    rw [if_neg (not_le.mpr hrc), if_pos ⟨htr, hval⟩]
  · intro h e
    have hval : ¬ (optListTruthy uc = true ∧
        (uc.getD []).all validUUID = false) := by
      rcases h with h | h
      · intro hc
        rw [h] at hc
        exact absurd hc.1 (by simp)
      · intro hc
        rw [h] at hc
        exact absurd hc.2 (by simp)
    simp only [get_feed]
    by_cases hrc : DAILY_LIMIT ≤ rc
    · rw [if_pos hrc]
      simp
    · rw [if_neg hrc, if_neg hval]
      simp

/-- Witness for the amended C8: with remaining budget, a non-parseable
identifier is rejected with 422; and a context-free request yields no
error. -/
theorem c8_validation_amended_witness :
    (0 < DAILY_LIMIT ∧ optListTruthy (some ["bad"]) = true ∧
      ((some ["bad"] : Option (List String)).getD []).all
        (fun _ => false) = false ∧
      get_feed (fun _ => false) [] (some ["bad"]) 1 0 10 =
        .error { status_code := 422 }) ∧
    ∀ e : HttpError,
      get_feed (fun _ => false) [] none 1 0 10 ≠ .error e := by
  refine ⟨⟨by decide, rfl, rfl, ?_⟩, ?_⟩
  · exact (c8_validation_amended (fun _ => false) [] (some ["bad"]) 1 0 10).1
      (by decide) rfl rfl
  · exact (c8_validation_amended (fun _ => false) [] none 1 0 10).2
      (Or.inl rfl)

end BloomScroll
